import Mathlib

/-!
# Verification of the PitaEEG sensor session protocol (`pitaeeg/sensor.py`)

Shallow embedding of the `Sensor` class of `src/pitaeeg/sensor.py`.

The native transport (an opaque C library reached through ctypes) is modelled
as an environment of response streams: each native entry point that the
wrapper calls draws its successive return values from a list supplied up
front, exactly as the repository's own test suite drives the wrapper through
`unittest.mock` side-effect lists.  Every call the wrapper issues to the
transport is recorded in an event trace, and `time.sleep` calls are recorded
as sleep events, so that claims about which transport calls are made (and how
often) are statable.  Wall-clock reads (`time.time()`) are drawn from a list
of rational timestamps; when the list is exhausted the observed run ends
(the polling loops observe only finitely many clock ticks in any run).
An exhausted response stream for a status-returning fetch is read as a failed
fetch (status `-1`), which the wrapper's status checks discard.

Python `float` values that the claims never compute with (channel samples,
battery level) are modelled as exact rationals; handles, counts and return
codes are integers as in the C ABI.
-/

/-- `DeviceInfo` (src/pitaeeg/types.py): device id bytes and the raw
null-padded device-name buffer.  The name buffer is modelled as the string of
its characters, NUL padding included. -/
structure DeviceInfo where
  deviceid : List Nat
  devicename : String
deriving DecidableEq, Repr, Inhabited

/-- The name decoding both discovery loops apply to a fetched descriptor:
`bytes(info.devicename).split(b"\x00", 1)[0].decode(errors="ignore")`, i.e.
everything before the first NUL byte. -/
def decodeDeviceName (raw : String) : String :=
  raw.takeWhile (fun c => c != Char.ofNat 0)

/-- One lowercase hex digit, as produced by Python `bytes.hex()`. -/
def hexDigit (n : Nat) : Char :=
  if n < 10 then Char.ofNat (48 + n) else Char.ofNat (87 + n)

/-- Two lowercase hex digits of one byte. -/
def byteHex (b : Nat) : String :=
  String.mk [hexDigit (b / 16 % 16), hexDigit (b % 16)]

/-- Python `bytes(info.deviceid).hex()`. -/
def bytesHex (bs : List Nat) : String :=
  String.join (bs.map byteHex)

/-- One entry of the list `scan_devices` returns: the dictionary
`{"name": ..., "id": ...}`. -/
structure ScanEntry where
  name : String
  id : String
deriving DecidableEq, Repr

/-- How `scan_devices` builds a result entry from a fetched descriptor. -/
def mkScanEntry (info : DeviceInfo) : ScanEntry :=
  { name := decodeDeviceName info.devicename, id := bytesHex info.deviceid }

/-- `ReceiveData2` (src/pitaeeg/types.py): 3 channel values, battery level,
repair flag (a C unsigned byte). -/
structure ReceiveData2 where
  data : List ℚ
  batlevel : ℚ
  isRepair : Nat
deriving DecidableEq, Repr, Inhabited

/-- The native entry points the wrapper can call (the surface bound in
`_bind_api`).  `startMeasure` carries the channel-enable array a
`SENSOR_PARAM` would hold; `startMeasure2` takes no channel parameter. -/
inductive LibCall where
  | startScan
  | stopScan
  | getScannedNum
  | getScannedDevice
  | connect_device (info : DeviceInfo)
  | disconnect_device
  | startMeasure (usech : List Nat)
  | startMeasure2
  | stopMeasure
  | getReceiveNum
  | getReceiveData2
  | term
  | getPgvSensorBatteryRemainingTime
  | getPgvSensorVersion
  | getSensorState
  | getContactResistance
deriving DecidableEq, Repr

/-- An observable event of a run: a transport call or a `time.sleep`. -/
inductive Event where
  | call (c : LibCall)
  | sleep (seconds : ℚ)
deriving DecidableEq, Repr

/-- `true` exactly on transport-call events. -/
def Event.isCall : Event → Bool
  | .call _ => true
  | .sleep _ => false

/-- `true` exactly on sleep events. -/
def Event.isSleep : Event → Bool
  | .call _ => false
  | .sleep _ => true

/-- `true` exactly on `connect_device` calls, whatever the descriptor. -/
def Event.isConnectDevice : Event → Bool
  | .call (.connect_device _) => true
  | _ => false

/-- The number of occurrences of the event `e` in a trace. -/
def countEvent (e : Event) (tr : List Event) : Nat :=
  (tr.filter (fun x => decide (x = e))).length

/-- Equality of `Except` results is decidable when both payloads decide,
so concrete runs can be checked by evaluation. -/
instance {e a : Type} [DecidableEq e] [DecidableEq a] : DecidableEq (Except e a)
  | .ok x, .ok y => decidable_of_iff (x = y) (by simp)
  | .ok _, .error _ => isFalse (by simp)
  | .error _, .ok _ => isFalse (by simp)
  | .error x, .error y => decidable_of_iff (x = y) (by simp)

/-- The exceptions of src/pitaeeg/exceptions.py that the session operations
raise, each carrying its message. -/
inductive SensorError where
  | initializationError (msg : String)
  | scanError (msg : String)
  | sensorConnectionError (msg : String)
  | measurementError (msg : String)
deriving DecidableEq, Repr

/-- The mutable state of one `Sensor` instance: `_handle`,
`_connected_device` and `_measuring`.  (`_port` and `_lib` never change after
`__init__` and do not enter any claim.) -/
structure Sensor where
  handle : Option Int
  connectedDevice : Option DeviceInfo
  measuring : Bool
deriving DecidableEq, Repr

/-- Property `Sensor.is_connected`: `self._connected_device is not None`. -/
def Sensor.is_connected (s : Sensor) : Bool :=
  s.connectedDevice.isSome

/-- Property `Sensor.is_measuring`: `self._measuring`. -/
def Sensor.is_measuring (s : Sensor) : Bool :=
  s.measuring

/-- `Sensor.__init__` after the library is loaded and bound: `Init` returns
`initRet`; a negative handle raises `InitializationError`, otherwise the
fresh session state stores the handle. -/
def Sensor.open (initRet : Int) : Except SensorError Sensor :=
  if initRet < 0 then
    .error (.initializationError ("Init failed with error code: " ++ toString initRet))
  else
    .ok { handle := some initRet, connectedDevice := none, measuring := false }

/-- Transport responses consumed by one `scan_devices` call. `times` feeds
`time.time()` (first element is `t0`), `scannedNums` feeds `getScannedNum`,
`scannedDevs` feeds `getScannedDevice` as (status, descriptor) pairs. -/
structure ScanEnv where
  startScanRet : Int
  stopScanRet : Int
  times : List ℚ
  scannedNums : List Int
  scannedDevs : List (Int × DeviceInfo)
deriving Repr

/-- Transport responses consumed by one `connect` call; `connectRet` feeds
`connect_device`. -/
structure ConnectEnv where
  startScanRet : Int
  stopScanRet : Int
  times : List ℚ
  scannedNums : List Int
  scannedDevs : List (Int × DeviceInfo)
  connectRet : Int
deriving Repr

/-- The inner `for _ in range(n)` of `scan_devices` (lines 387-399): fetch
`n` descriptors one at a time; a fetch with status 0 is decoded and appended,
any other status is skipped.  Returns (entries appended, trace, remaining
fetch stream).  An exhausted stream reads as a failed fetch. -/
def scanPass : Nat → List (Int × DeviceInfo) →
    List ScanEntry × List Event × List (Int × DeviceInfo)
  | 0, devs => ([], [], devs)
  | n + 1, [] =>
    let p := scanPass n []
    (p.1, Event.call .getScannedDevice :: p.2.1, p.2.2)
  | n + 1, r :: devs =>
    let p := scanPass n devs
    (if r.1 = 0 then mkScanEntry r.2 :: p.1 else p.1,
     Event.call .getScannedDevice :: p.2.1, p.2.2)

/-- The unfiltered polling loop of `scan_devices` (lines 385-403): while the
clock reads under `t0 + timeout`, run one pass; stop as soon as the
accumulated device list is nonempty, otherwise `time.sleep(0.1)` and
re-poll. One clock tick is consumed per iteration; an exhausted clock ends
the observed run with the devices accumulated so far, exactly as a tick at
or past the deadline would. -/
def scanLoop (t0 timeout : ℚ) :
    List ScanEntry → List ℚ → List Int → List (Int × DeviceInfo) →
    List ScanEntry × List Event
  | devices, [], _, _ => (devices, [])
  | devices, t :: ts, nums, devs =>
    if t - t0 < timeout then
      let p := scanPass (nums.headD 0).toNat devs
      let devices' := devices ++ p.1
      if devices' = [] then
        let rest := scanLoop t0 timeout devices' ts nums.tail p.2.2
        (rest.1, Event.call .getScannedNum :: p.2.1 ++ Event.sleep (1/10) :: rest.2)
      else
        (devices', Event.call .getScannedNum :: p.2.1)
    else (devices, [])

/-- `Sensor.scan_devices` (lines 352-407): handle check, `startScan` check,
polling loop, `stopScan` in the `finally`. -/
def Sensor.scan_devices (env : ScanEnv) (timeout : ℚ) (s : Sensor) :
    Except SensorError (List ScanEntry) × List Event × Sensor :=
  if s.handle = none then
    (.error (.scanError "Sensor not initialized"), [], s)
  else if env.startScanRet ≠ 0 then
    (.error (.scanError "Failed to start device scan"), [Event.call .startScan], s)
  else
    let t0 := env.times.headD 0
    let L := scanLoop t0 timeout [] env.times.tail env.scannedNums env.scannedDevs
    (.ok L.1, Event.call .startScan :: L.2 ++ [Event.call .stopScan], s)

/-- The inner `for _ in range(n)` of `connect` (lines 442-455): fetch up to
`n` descriptors, breaking at the first fetch with status 0 whose decoded name
equals `device_name`. -/
def connectPass (device_name : String) : Nat → List (Int × DeviceInfo) →
    Option DeviceInfo × List Event × List (Int × DeviceInfo)
  | 0, devs => (none, [], devs)
  | n + 1, [] =>
    let p := connectPass device_name n []
    (p.1, Event.call .getScannedDevice :: p.2.1, p.2.2)
  | n + 1, r :: devs =>
    if r.1 = 0 ∧ decodeDeviceName r.2.devicename = device_name then
      (some r.2, [Event.call .getScannedDevice], devs)
    else
      let p := connectPass device_name n devs
      (p.1, Event.call .getScannedDevice :: p.2.1, p.2.2)

/-- The filtered polling loop of `connect` (lines 440-458): while the clock
reads under `t0 + scan_timeout`, run one filtered pass; stop once a target is
captured, otherwise `time.sleep(0.1)` and re-poll. -/
def connectLoop (device_name : String) (t0 timeout : ℚ) :
    List ℚ → List Int → List (Int × DeviceInfo) → Option DeviceInfo × List Event
  | [], _, _ => (none, [])
  | t :: ts, nums, devs =>
    if t - t0 < timeout then
      let p := connectPass device_name (nums.headD 0).toNat devs
      match p.1 with
      | some d => (some d, Event.call .getScannedNum :: p.2.1)
      | none =>
        let rest := connectLoop device_name t0 timeout ts nums.tail p.2.2
        (rest.1, Event.call .getScannedNum :: p.2.1 ++ Event.sleep (1/10) :: rest.2)
    else (none, [])

/-- The descriptor `connect` captures from its polling loop for a given
environment, if any. -/
def connectTarget (env : ConnectEnv) (device_name : String) (timeout : ℚ) :
    Option DeviceInfo :=
  (connectLoop device_name (env.times.headD 0) timeout
    env.times.tail env.scannedNums env.scannedDevs).1

/-- `Sensor.connect` (lines 409-470): handle check, `startScan` check,
filtered polling loop with `stopScan` in the `finally`, then not-found check,
`connect_device` call and state update. -/
def Sensor.connect (env : ConnectEnv) (device_name : String) (scan_timeout : ℚ)
    (s : Sensor) : Except SensorError Unit × List Event × Sensor :=
  if s.handle = none then
    (.error (.sensorConnectionError "Sensor not initialized"), [], s)
  else if env.startScanRet ≠ 0 then
    (.error (.sensorConnectionError "Failed to start device scan"),
     [Event.call .startScan], s)
  else
    let t0 := env.times.headD 0
    let L := connectLoop device_name t0 scan_timeout
        env.times.tail env.scannedNums env.scannedDevs
    let tr := Event.call .startScan :: L.2 ++ [Event.call .stopScan]
    match L.1 with
    | none =>
      (.error (.sensorConnectionError ("Device '" ++ device_name ++ "' not found")),
       tr, s)
    | some d =>
      if env.connectRet ≠ 0 then
        (.error (.sensorConnectionError
            ("Failed to connect to device '" ++ device_name ++ "'")),
         tr ++ [Event.call (.connect_device d)], s)
      else
        (.ok (), tr ++ [Event.call (.connect_device d)],
         { s with connectedDevice := some d })

/-- Transport responses consumed by one `start_measurement` call:
`startMeasure2` writes `devicetime` and returns `ret`. -/
structure MeasEnv where
  ret : Int
  devicetime : Int
deriving Repr

/-- `Sensor.start_measurement` (lines 472-511): handle check, connected-device
check, `startMeasure2` call, error-code check, state update and device time
return. -/
def Sensor.start_measurement (env : MeasEnv) (s : Sensor) :
    Except SensorError Int × List Event × Sensor :=
  if s.handle = none then
    (.error (.measurementError "Sensor not initialized"), [], s)
  else if s.connectedDevice = none then
    (.error (.measurementError "No device connected"), [], s)
  else if env.ret ≠ 0 then
    (.error (.measurementError ("startMeasure failed with error code: " ++ toString env.ret)),
     [Event.call .startMeasure2], s)
  else
    (.ok env.devicetime, [Event.call .startMeasure2], { s with measuring := true })

/-- Transport response consumed by one `stop_measurement` call; the wrapper
discards the `stopMeasure` return code. -/
structure StopEnv where
  stopMeasureRet : Int
deriving Repr

/-- `Sensor.stop_measurement` (lines 558-572): call `stopMeasure` and clear
the flag only when a handle is present and measuring; otherwise do nothing.
Never raises. -/
def Sensor.stop_measurement (env : StopEnv) (s : Sensor) :
    Except SensorError Unit × List Event × Sensor :=
  if s.handle ≠ none ∧ s.measuring then
    (.ok (), [Event.call .stopMeasure], { s with measuring := false })
  else
    (.ok (), [], s)

/-- Transport responses consumed by one `disconnect` call; both return codes
are discarded by the wrapper. -/
structure DisconnectEnv where
  stopMeasureRet : Int
  disconnectRet : Int
deriving Repr

/-- `Sensor.disconnect` (lines 574-588): when a handle and a connected device
are present, stop measurement first, call `disconnect_device`, clear the
connected device; otherwise do nothing.  Never raises. -/
def Sensor.disconnect (env : DisconnectEnv) (s : Sensor) :
    Except SensorError Unit × List Event × Sensor :=
  if s.handle ≠ none ∧ s.connectedDevice ≠ none then
    let r := Sensor.stop_measurement ⟨env.stopMeasureRet⟩ s
    (.ok (), r.2.1 ++ [Event.call .disconnect_device],
     { r.2.2 with connectedDevice := none })
  else
    (.ok (), [], s)

/-- Transport responses consumed by one `close` call; all are discarded. -/
structure CloseEnv where
  stopMeasureRet : Int
  disconnectRet : Int
  termRet : Int
deriving Repr

/-- `Sensor.close` (lines 590-611): best-effort `disconnect` (its transport
errors suppressed — in this model the embedded `disconnect` is total, and the
discarded return codes of the environment are the suppressed transport
errors), then `Term` if a handle is present, then clear the handle.  Never
raises. -/
def Sensor.close (env : CloseEnv) (s : Sensor) :
    Except SensorError Unit × List Event × Sensor :=
  let r := Sensor.disconnect ⟨env.stopMeasureRet, env.disconnectRet⟩ s
  if r.2.2.handle ≠ none then
    (.ok (), r.2.1 ++ [Event.call .term], { r.2.2 with handle := none })
  else
    (.ok (), r.2.1, r.2.2)

/-- Environments for the auxiliary status queries (section lines 613-749):
one transport call each, writing a value and returning a status. -/
structure BatteryEnv where
  ret : Int
  value : ℚ
deriving Repr

/-- `Sensor.get_battery_remaining_time` (lines 613-639). -/
def Sensor.get_battery_remaining_time (env : BatteryEnv) (s : Sensor) :
    Except SensorError ℚ × List Event × Sensor :=
  if s.handle = none then
    (.error (.measurementError "Sensor not initialized"), [], s)
  else if env.ret ≠ 0 then
    (.error (.measurementError
        ("getPgvSensorBatteryRemainingTime failed with error code: " ++ toString env.ret)),
     [Event.call .getPgvSensorBatteryRemainingTime], s)
  else
    (.ok env.value, [Event.call .getPgvSensorBatteryRemainingTime], s)

/-- `Sensor.get_version` (lines 641-667), same shape as the battery query. -/
def Sensor.get_version (env : BatteryEnv) (s : Sensor) :
    Except SensorError ℚ × List Event × Sensor :=
  if s.handle = none then
    (.error (.measurementError "Sensor not initialized"), [], s)
  else if env.ret ≠ 0 then
    (.error (.measurementError
        ("getPgvSensorVersion failed with error code: " ++ toString env.ret)),
     [Event.call .getPgvSensorVersion], s)
  else
    (.ok env.value, [Event.call .getPgvSensorVersion], s)

/-- Environment for `get_state`: status, state word, error word. -/
structure StateEnv where
  ret : Int
  state : Int
  error : Int
deriving Repr

/-- `Sensor.get_state` (lines 669-722). -/
def Sensor.get_state (env : StateEnv) (s : Sensor) :
    Except SensorError (Int × Int) × List Event × Sensor :=
  if s.handle = none then
    (.error (.measurementError "Sensor not initialized"), [], s)
  else if env.ret ≠ 0 then
    (.error (.measurementError
        ("getSensorState failed with error code: " ++ toString env.ret)),
     [Event.call .getSensorState], s)
  else
    (.ok (env.state, env.error), [Event.call .getSensorState], s)

/-- `CONTACT_RESISTANCE` (src/pitaeeg/types.py): per-channel resistances. -/
structure ContactResistance where
  ChZ : ℚ
  ChR : ℚ
  ChL : ℚ
deriving DecidableEq, Repr

/-- Environment for `get_contact_resistance`. -/
structure ResistanceEnv where
  ret : Int
  value : ContactResistance
deriving Repr

/-- `Sensor.get_contact_resistance` (lines 724-749). -/
def Sensor.get_contact_resistance (env : ResistanceEnv) (s : Sensor) :
    Except SensorError ContactResistance × List Event × Sensor :=
  if s.handle = none then
    (.error (.measurementError "Sensor not initialized"), [], s)
  else if env.ret ≠ 0 then
    (.error (.measurementError
        ("getContactResistance failed with error code: " ++ toString env.ret)),
     [Event.call .getContactResistance], s)
  else
    (.ok env.value, [Event.call .getContactResistance], s)

/-! ## The measurement data stream

`Sensor.receive_data` is a Python generator function (lines 513-556).
Calling a generator function executes none of its body: it only creates a
suspended generator capturing `self`; the body — its precondition checks
included — first runs when the consumer requests the first record.  The
embedding therefore splits the method into the invocation (`receive_data`,
which can only succeed) and the run of the generator's body
(`Sensor.receiveRun`, driven from the first `next()` call).

The body's `while self._measuring` condition re-reads session state that
only an external actor (a `stop_measurement` call between pulls) can change;
the environment supplies the sequence of values this read observes, one per
loop iteration, together with the `getReceiveNum` and `getReceiveData2`
response streams.  A finite flag sequence is an observation horizon: the run
is watched for that many iterations. -/

/-- The suspended generator object returned by calling `receive_data`:
it has captured the session and run nothing. -/
structure ReceiveGen where
  captured : Sensor
deriving DecidableEq, Repr

/-- Invoking the generator function `Sensor.receive_data` (line 513): no body
code runs, so no check fires and no transport call is made; Python returns
the suspended generator. -/
def Sensor.receive_data (s : Sensor) : Except SensorError ReceiveGen :=
  .ok ⟨s⟩

/-- Environment for one observed run of the generator body. -/
structure RecvEnv where
  measuringReads : List Bool
  receiveNums : List Int
  pulls : List (Int × ReceiveData2)
deriving Repr

/-- The inner `for _ in range(num)` (lines 553-556): pull `num` records one
at a time; a pull whose status is non-negative is yielded at once, a negative
status is skipped.  An exhausted stream reads as a failed pull (status -1). -/
def recvDrain : Nat → List (Int × ReceiveData2) →
    List ReceiveData2 × List Event × List (Int × ReceiveData2)
  | 0, pulls => ([], [], pulls)
  | n + 1, [] =>
    let p := recvDrain n []
    (p.1, Event.call .getReceiveData2 :: p.2.1, p.2.2)
  | n + 1, r :: pulls =>
    let p := recvDrain n pulls
    (if 0 ≤ r.1 then r.2 :: p.1 else p.1,
     Event.call .getReceiveData2 :: p.2.1, p.2.2)

/-- The `while self._measuring` loop (lines 548-556).  Each iteration reads
the measuring flag; on `false` the loop exits (third component `true`).  On
`true` it queries `getReceiveNum`; a non-positive count continues
immediately (`continue`, no sleep), a positive count is drained.  An
exhausted flag sequence ends the observation with the loop still running
(third component `false`). -/
def recvLoop : List Bool → List Int → List (Int × ReceiveData2) →
    List ReceiveData2 × List Event × Bool
  | [], _, _ => ([], [], false)
  | m :: ms, nums, pulls =>
    if m then
      let num := nums.headD 0
      if num ≤ 0 then
        let rest := recvLoop ms nums.tail pulls
        (rest.1, Event.call .getReceiveNum :: rest.2.1, rest.2.2)
      else
        let p := recvDrain num.toNat pulls
        let rest := recvLoop ms nums.tail p.2.2
        (p.1 ++ rest.1, Event.call .getReceiveNum :: p.2.1 ++ rest.2.1, rest.2.2)
    else ([], [], true)

/-- Running the generator body from the first `next()` on (lines 539-556):
handle check, measuring check, then the polling loop.  Returns the records
yielded during the observed run, the trace, and whether the loop exited by
observing `measuring = false`. -/
def Sensor.receiveRun (g : ReceiveGen) (env : RecvEnv) :
    Except SensorError (List ReceiveData2) × List Event × Bool :=
  if g.captured.handle = none then
    (.error (.measurementError "Sensor not initialized"), [], false)
  else if g.captured.measuring = false then
    (.error (.measurementError "Measurement not started"), [], false)
  else
    let L := recvLoop env.measuringReads env.receiveNums env.pulls
    (.ok L.1, L.2.1, L.2.2)

/-! ## Discovery loops under an injected transport exception

ctypes can surface an `OSError` from any native call.  Both discovery loops
wrap their polling in `try/finally: stopScan(...)`, so a raise inside the
loop body still releases the scan.  To state that, the two loops are
re-embedded over response streams in which an entry `none` means "this call
raises"; the raise aborts the loop and propagates (as `Except.error ()`),
after which the wrapper's `finally` still issues `stopScan`. -/

/-- `scanPass` with fetch responses that may raise. -/
def scanPassExc : Nat → List (Option (Int × DeviceInfo)) →
    Except Unit (List ScanEntry × List (Option (Int × DeviceInfo))) × List Event
  | 0, devs => (.ok ([], devs), [])
  | n + 1, [] =>
    let p := scanPassExc n []
    (p.1, Event.call .getScannedDevice :: p.2)
  | n + 1, none :: _ => (.error (), [Event.call .getScannedDevice])
  | n + 1, some r :: devs =>
    let p := scanPassExc n devs
    ((do
        let q ← p.1
        pure ((if r.1 = 0 then mkScanEntry r.2 :: q.1 else q.1), q.2)),
     Event.call .getScannedDevice :: p.2)

/-- `scanLoop` with count and fetch responses that may raise. -/
def scanLoopExc (t0 timeout : ℚ) :
    List ScanEntry → List ℚ → List (Option Int) → List (Option (Int × DeviceInfo)) →
    Except Unit (List ScanEntry) × List Event
  | devices, [], _, _ => (.ok devices, [])
  | devices, t :: ts, nums, devs =>
    if t - t0 < timeout then
      match nums.headD (some 0) with
      | none => (.error (), [Event.call .getScannedNum])
      | some n =>
        match scanPassExc n.toNat devs with
        | (.error e, passTr) => (.error e, Event.call .getScannedNum :: passTr)
        | (.ok (found, devs'), passTr) =>
          let devices' := devices ++ found
          if devices' = [] then
            let rest := scanLoopExc t0 timeout devices' ts nums.tail devs'
            (rest.1, Event.call .getScannedNum :: passTr ++ Event.sleep (1/10) :: rest.2)
          else
            (.ok devices', Event.call .getScannedNum :: passTr)
    else (.ok devices, [])

/-- The `try/finally` portion of `scan_devices` under a possibly raising
transport: run the loop, then issue `stopScan` on every exit, propagating
the loop's outcome. -/
def scanDevicesFinally (t0 timeout : ℚ) (times : List ℚ)
    (nums : List (Option Int)) (devs : List (Option (Int × DeviceInfo))) :
    Except Unit (List ScanEntry) × List Event :=
  let L := scanLoopExc t0 timeout [] times nums devs
  (L.1, Event.call .startScan :: L.2 ++ [Event.call .stopScan])

/-- `connectPass` with fetch responses that may raise. -/
def connectPassExc (device_name : String) : Nat → List (Option (Int × DeviceInfo)) →
    Except Unit (Option DeviceInfo × List (Option (Int × DeviceInfo))) × List Event
  | 0, devs => (.ok (none, devs), [])
  | n + 1, [] =>
    let p := connectPassExc device_name n []
    (p.1, Event.call .getScannedDevice :: p.2)
  | n + 1, none :: _ => (.error (), [Event.call .getScannedDevice])
  | n + 1, some r :: devs =>
    if r.1 = 0 ∧ decodeDeviceName r.2.devicename = device_name then
      (.ok (some r.2, devs), [Event.call .getScannedDevice])
    else
      let p := connectPassExc device_name n devs
      (p.1, Event.call .getScannedDevice :: p.2)

/-- `connectLoop` with count and fetch responses that may raise. -/
def connectLoopExc (device_name : String) (t0 timeout : ℚ) :
    List ℚ → List (Option Int) → List (Option (Int × DeviceInfo)) →
    Except Unit (Option DeviceInfo) × List Event
  | [], _, _ => (.ok none, [])
  | t :: ts, nums, devs =>
    if t - t0 < timeout then
      match nums.headD (some 0) with
      | none => (.error (), [Event.call .getScannedNum])
      | some n =>
        match connectPassExc device_name n.toNat devs with
        | (.error e, passTr) => (.error e, Event.call .getScannedNum :: passTr)
        | (.ok (some d, _), passTr) =>
          (.ok (some d), Event.call .getScannedNum :: passTr)
        | (.ok (none, devs'), passTr) =>
          let rest := connectLoopExc device_name t0 timeout ts nums.tail devs'
          (rest.1, Event.call .getScannedNum :: passTr ++ Event.sleep (1/10) :: rest.2)
    else (.ok none, [])

/-- The `try/finally` portion of `connect` under a possibly raising
transport: run the filtered loop, then issue `stopScan` on every exit. -/
def connectFinally (device_name : String) (t0 timeout : ℚ) (times : List ℚ)
    (nums : List (Option Int)) (devs : List (Option (Int × DeviceInfo))) :
    Except Unit (Option DeviceInfo) × List Event :=
  let L := connectLoopExc device_name t0 timeout times nums devs
  (L.1, Event.call .startScan :: L.2 ++ [Event.call .stopScan])

/-! ## Operation sequences and the nesting invariant -/

/-- One invocation of a session operation, with the transport responses it
consumes.  (Running the `receive_data` generator mutates no session field;
the `measuring` flag is flipped by `stop_measurement`/`close` operations of
the sequence itself.) -/
inductive Op where
  | scanOp (env : ScanEnv) (timeout : ℚ)
  | connectOp (env : ConnectEnv) (device_name : String) (timeout : ℚ)
  | startMeasurementOp (env : MeasEnv)
  | receiveDataOp (env : RecvEnv)
  | stopMeasurementOp (env : StopEnv)
  | disconnectOp (env : DisconnectEnv)
  | closeOp (env : CloseEnv)

/-- The session state after one operation. -/
def stepState (s : Sensor) : Op → Sensor
  | .scanOp env t => (Sensor.scan_devices env t s).2.2
  | .connectOp env n t => (Sensor.connect env n t s).2.2
  | .startMeasurementOp env => (Sensor.start_measurement env s).2.2
  | .receiveDataOp _ => s
  | .stopMeasurementOp env => (Sensor.stop_measurement env s).2.2
  | .disconnectOp env => (Sensor.disconnect env s).2.2
  | .closeOp env => (Sensor.close env s).2.2

/-- The strict nesting of session states: Measuring implies Connected implies
Initialized. -/
def Nested (s : Sensor) : Prop :=
  (s.is_measuring = true → s.is_connected = true) ∧
  (s.is_connected = true → s.handle ≠ none)

instance : DecidablePred Nested := fun s => by
  unfold Nested Sensor.is_measuring Sensor.is_connected
  infer_instance

/-! ## Claims -/

/-- C1 (amended).  Operations with a state precondition — `scan_devices`,
`connect`, `start_measurement`, the `receive_data` stream at its first record
request, and the four status queries — invoked with the handle absent fail
with the state-specific typed error carrying "Sensor not initialized"
(`ScanError` for scan, `SensorConnectionError` for connect,
`MeasurementError` for the rest); `start_measurement` with a handle but no
connected device fails with `MeasurementError` "No device connected".  Each
failure leaves the session state unchanged and makes no transport call.
`stop_measurement` and `disconnect` invoked before initialization or after
close are silent no-ops: no error, state unchanged, no transport call. -/
theorem C1_state_preconditions (senv : ScanEnv) (cenv : ConnectEnv) (menv : MeasEnv)
    (renv : RecvEnv) (benv venv : BatteryEnv) (stenv : StateEnv) (crenv : ResistanceEnv)
    (spenv : StopEnv) (denv : DisconnectEnv) (timeout scanT : ℚ) (name : String)
    (s s2 : Sensor) (h : s.handle = none) (h2 : s2.handle ≠ none)
    (h3 : s2.connectedDevice = none) :
    Sensor.scan_devices senv timeout s = (.error (.scanError "Sensor not initialized"), [], s)
  ∧ Sensor.connect cenv name scanT s = (.error (.sensorConnectionError "Sensor not initialized"), [], s)
  ∧ Sensor.start_measurement menv s = (.error (.measurementError "Sensor not initialized"), [], s)
  ∧ Sensor.receiveRun ⟨s⟩ renv = (.error (.measurementError "Sensor not initialized"), [], false)
  ∧ Sensor.get_battery_remaining_time benv s = (.error (.measurementError "Sensor not initialized"), [], s)
  ∧ Sensor.get_version venv s = (.error (.measurementError "Sensor not initialized"), [], s)
  ∧ Sensor.get_state stenv s = (.error (.measurementError "Sensor not initialized"), [], s)
  ∧ Sensor.get_contact_resistance crenv s = (.error (.measurementError "Sensor not initialized"), [], s)
  ∧ Sensor.stop_measurement spenv s = (.ok (), [], s)
  ∧ Sensor.disconnect denv s = (.ok (), [], s)
  ∧ Sensor.start_measurement menv s2 = (.error (.measurementError "No device connected"), [], s2) := by
  refine ⟨?_, ?_, ?_, ?_, ?_, ?_, ?_, ?_, ?_, ?_, ?_⟩ <;>
    simp [Sensor.scan_devices, Sensor.connect, Sensor.start_measurement, Sensor.receiveRun,
      Sensor.get_battery_remaining_time, Sensor.get_version, Sensor.get_state,
      Sensor.get_contact_resistance, Sensor.stop_measurement, Sensor.disconnect, h, h2, h3]

/-- C1 witness: the amended statement applied at a closed session and a
connected-less initialized session. -/
theorem C1_state_preconditions_witness :
    Sensor.scan_devices ⟨0, 0, [], [], []⟩ 10 ⟨none, none, false⟩
      = (.error (.scanError "Sensor not initialized"), [], ⟨none, none, false⟩) :=
  (C1_state_preconditions ⟨0, 0, [], [], []⟩ ⟨0, 0, [], [], [], 0⟩ ⟨0, 0⟩ ⟨[], [], []⟩
    ⟨0, 0⟩ ⟨0, 0⟩ ⟨0, 0, 0⟩ ⟨0, ⟨0, 0, 0⟩⟩ ⟨0⟩ ⟨0, 0⟩ 10 10 "HARU2-001"
    ⟨none, none, false⟩ ⟨some 1, none, false⟩ rfl (by simp) rfl).1

/-- C1 counterexample.  The claim as stated demands that every operation
invoked before initialization or after close fail with a state-specific
typed error; but `stop_measurement` on a session whose handle is absent
returns normally — a silent no-op, not an error (and `disconnect` behaves
the same way). -/
theorem C1_counterexample :
    Sensor.stop_measurement ⟨0⟩ ⟨none, none, false⟩
      = (Except.ok (), [], (⟨none, none, false⟩ : Sensor)) := by
  rfl

/-- C2.  `close` never raises and suppresses every transport error (the
result is `ok` for all response codes); after any close of a well-nested
session the handle is cleared and `is_connected`/`is_measuring` are false; a
second close in succession is a no-op that makes no transport call; on a
fully active session the best-effort teardown issues exactly
stop-measure, disconnect, terminate, in that order. -/
theorem C2_close_idempotent_teardown (env env2 : CloseEnv) (s : Sensor)
    (hInv : Nested s) :
    (Sensor.close env s).1 = Except.ok ()
  ∧ (Sensor.close env s).2.2 = ⟨none, none, false⟩
  ∧ Sensor.close env2 (Sensor.close env s).2.2
      = (Except.ok (), [], (Sensor.close env s).2.2)
  ∧ Sensor.is_connected (Sensor.close env s).2.2 = false
  ∧ Sensor.is_measuring (Sensor.close env s).2.2 = false
  ∧ (∀ h : Int, ∀ d : DeviceInfo,
      (Sensor.close env ⟨some h, some d, true⟩).2.1
        = [Event.call .stopMeasure, Event.call .disconnect_device, Event.call .term]) := by
  obtain ⟨oh, oc, m⟩ := s
  obtain ⟨h1, h2⟩ := hInv
  simp [Sensor.is_measuring, Sensor.is_connected] at h1 h2
  refine ⟨?_, ?_, ?_, ?_, ?_, ?_⟩ <;>
  · first
    | (intro h d
       simp [Sensor.close, Sensor.disconnect, Sensor.stop_measurement])
    | (rcases oh with _ | hv <;> rcases oc with _ | cv <;> rcases m with _ | _ <;>
        simp_all [Sensor.close, Sensor.disconnect, Sensor.stop_measurement,
          Sensor.is_connected, Sensor.is_measuring])

/-- C2 witness: the theorem applied to a fully active session. -/
theorem C2_close_witness :
    (Sensor.close ⟨0, 0, 0⟩ ⟨some 1, some ⟨[1], "HARU2-001"⟩, true⟩).1 = Except.ok () :=
  (C2_close_idempotent_teardown ⟨0, 0, 0⟩ ⟨0, 0, 0⟩
    ⟨some 1, some ⟨[1], "HARU2-001"⟩, true⟩ (by decide)).1

/-- C7 (amended).  `start_measurement` builds no channel-enable mask: it
invokes the transport through `startMeasure2`, which takes only the handle
and the device-time out-parameter.  On nonzero return it raises
`MeasurementError` including the returned code; on zero return it returns
the device-epoch timestamp in milliseconds and transitions the session to
Measuring. -/
theorem C7_start_measurement (env : MeasEnv) (s : Sensor)
    (h1 : s.handle ≠ none) (h2 : s.connectedDevice ≠ none) :
    (Sensor.start_measurement env s).2.1 = [Event.call .startMeasure2]
  ∧ (env.ret ≠ 0 →
      Sensor.start_measurement env s =
        (.error (.measurementError
            ("startMeasure failed with error code: " ++ toString env.ret)),
         [Event.call .startMeasure2], s))
  ∧ (env.ret = 0 →
      Sensor.start_measurement env s =
        (.ok env.devicetime, [Event.call .startMeasure2],
         { s with measuring := true })) := by
  by_cases hr : env.ret = 0 <;>
    simp [Sensor.start_measurement, h1, h2, hr]

/-- C7 witness: the amended statement applied to a connected session with a
successful transport. -/
theorem C7_start_measurement_witness :
    (Sensor.start_measurement ⟨0, 1700000000000⟩
        ⟨some 1, some ⟨[1], "HARU2-001"⟩, false⟩).2.1
      = [Event.call .startMeasure2] :=
  (C7_start_measurement ⟨0, 1700000000000⟩ ⟨some 1, some ⟨[1], "HARU2-001"⟩, false⟩
    (by simp) (by simp)).1

/-- C7 counterexample.  The claim as stated has `start_measurement` pass an
all-8-channels-on enable mask to the transport start-measure call; but the
trace of a successful `start_measurement` contains no `startMeasure` call
carrying a channel mask — the one transport call made is the mask-less
`startMeasure2`. -/
theorem C7_counterexample :
    ((Sensor.start_measurement ⟨0, 1700000000000⟩
        ⟨some 1, some ⟨[1], "HARU2-001"⟩, false⟩).2.1.contains
      (Event.call (.startMeasure [1, 1, 1, 1, 1, 1, 1, 1]))) = false := by
  rfl

/-- C8 (amended).  Invoking `receive_data` outside the Measuring state does
not fail at the invocation itself: Python returns the suspended generator.
The failure — `MeasurementError` "Measurement not started", or "Sensor not
initialized" when the handle is absent — surfaces at the first record
request, before any transport call is made. -/
theorem C8_receive_data_deferred_failure (s : Sensor) (env : RecvEnv)
    (hm : s.measuring = false) :
    Sensor.receive_data s = .ok ⟨s⟩
  ∧ (Sensor.receiveRun ⟨s⟩ env).1 =
      .error (.measurementError
        (if s.handle = none then "Sensor not initialized" else "Measurement not started"))
  ∧ (Sensor.receiveRun ⟨s⟩ env).2.1 = [] := by
  by_cases hh : s.handle = none <;>
    simp [Sensor.receive_data, Sensor.receiveRun, hm, hh]

/-- C8 witness: the amended statement applied to an initialized,
non-measuring session. -/
theorem C8_receive_data_deferred_witness :
    Sensor.receive_data ⟨some 1, none, false⟩ = .ok ⟨⟨some 1, none, false⟩⟩ :=
  (C8_receive_data_deferred_failure ⟨some 1, none, false⟩ ⟨[], [], []⟩ rfl).1

/-- C8 counterexample.  The claim as stated has `receive_data` fail "at the
invocation itself, before the consumer requests any record"; but invoking it
on an initialized, non-measuring session raises nothing — it returns the
suspended generator, and the `MeasurementError` first surfaces when the
consumer requests a record. -/
theorem C8_counterexample :
    Sensor.receive_data ⟨some 1, none, false⟩
      = Except.ok ⟨⟨some 1, none, false⟩⟩ := by
  rfl

/-! ### Trace-counting helpers -/

lemma countEvent_nil (e : Event) : countEvent e [] = 0 := rfl

lemma countEvent_cons (e x : Event) (tr : List Event) :
    countEvent e (x :: tr) = (if x = e then 1 else 0) + countEvent e tr := by
  by_cases h : x = e <;> simp [countEvent, List.filter_cons, h, Nat.add_comm]

lemma countEvent_append (e : Event) (l1 l2 : List Event) :
    countEvent e (l1 ++ l2) = countEvent e l1 + countEvent e l2 := by
  simp [countEvent, List.filter_append]

lemma countEvent_replicate_ne (e e' : Event) (k : Nat) (h : e' ≠ e) :
    countEvent e (List.replicate k e') = 0 := by
  induction k with
  | zero => rfl
  | succ n ih => simp [List.replicate_succ, countEvent_cons, h, ih]

/-! ### The drain and the measuring-flag loop -/

lemma recvDrain_trace (k : Nat) : ∀ pulls : List (Int × ReceiveData2),
    (recvDrain k pulls).2.1 = List.replicate k (Event.call .getReceiveData2) := by
  induction k with
  | zero => intro pulls; rfl
  | succ n ih =>
    intro pulls
    cases pulls with
    | nil => simp [recvDrain, ih, List.replicate_succ]
    | cons r rest => simp [recvDrain, ih, List.replicate_succ]

lemma recvDrain_yields (k : Nat) : ∀ pulls : List (Int × ReceiveData2),
    (recvDrain k pulls).1 =
      ((pulls.take k).filter (fun r => decide (0 ≤ r.1))).map Prod.snd := by
  induction k with
  | zero => intro pulls; rfl
  | succ n ih =>
    intro pulls
    cases pulls with
    | nil => simp [recvDrain, ih]
    | cons r rest =>
      by_cases h : (0 : Int) ≤ r.1 <;>
        simp [recvDrain, ih, List.filter_cons, h]

lemma recvLoop_stopped (sched : List Bool) : ∀ (nums : List Int) (pulls : List (Int × ReceiveData2)),
    ((recvLoop sched nums pulls).2.2 = true ↔ false ∈ sched) := by
  induction sched with
  | nil => intro nums pulls; simp [recvLoop]
  | cons m ms ih =>
    intro nums pulls
    cases m with
    | false => simp [recvLoop]
    | true =>
      simp only [recvLoop, eq_self_iff_true, if_true]
      split <;> simp [ih]

lemma recvLoop_numCalls (sched : List Bool) : ∀ (nums : List Int) (pulls : List (Int × ReceiveData2)),
    sched.all (fun b => b) = true →
    countEvent (Event.call .getReceiveNum) (recvLoop sched nums pulls).2.1 = sched.length := by
  induction sched with
  | nil => intro nums pulls _; rfl
  | cons m ms ih =>
    intro nums pulls hall
    simp only [List.all_cons, Bool.and_eq_true] at hall
    obtain ⟨hm, hms⟩ := hall
    cases m with
    | false => cases hm
    | true =>
      simp only [recvLoop, eq_self_iff_true, if_true]
      split
      · simp [countEvent_cons, ih _ _ hms, Nat.add_comm]
      · simp [countEvent_cons, countEvent_append, recvDrain_trace,
          countEvent_replicate_ne, ih _ _ hms, Nat.add_comm]

/-- C4.  The measurement stream: a drain of a reported count of `k` buffered
samples pulls exactly `k` records one at a time and yields exactly those
whose pull status is non-negative, immediately and in arrival order,
silently skipping negative-status records; the polling loop exits exactly
when a `false` measuring flag is observed at the top of an iteration, and
under an always-true flag it re-queries the buffered count at every
iteration of the observation with no internal timeout or sample limit; on
the spec's example (3 reported samples, second pull status negative) the
stream yields exactly the 2 surviving records in arrival order. -/
theorem C4_receive_stream (sched : List Bool) (nums : List Int)
    (pulls : List (Int × ReceiveData2)) (k : Nat) :
    (recvDrain k pulls).1 = ((pulls.take k).filter (fun r => decide (0 ≤ r.1))).map Prod.snd
  ∧ (recvDrain k pulls).2.1 = List.replicate k (Event.call .getReceiveData2)
  ∧ ((recvLoop sched nums pulls).2.2 = true ↔ false ∈ sched)
  ∧ (sched.all (fun b => b) = true →
      countEvent (Event.call .getReceiveNum) (recvLoop sched nums pulls).2.1 = sched.length)
  ∧ Sensor.receiveRun ⟨⟨some 1, some ⟨[1], "HARU2-001"⟩, true⟩⟩
      ⟨[true, false], [3],
       [(0, ⟨[1, 2, 3], 90, 0⟩), (-1, ⟨[4, 5, 6], 90, 0⟩), (0, ⟨[7, 8, 9], 90, 0⟩)]⟩
      = (.ok [⟨[1, 2, 3], 90, 0⟩, ⟨[7, 8, 9], 90, 0⟩],
         [Event.call .getReceiveNum, Event.call .getReceiveData2,
          Event.call .getReceiveData2, Event.call .getReceiveData2], true) := by
  refine ⟨recvDrain_yields k pulls, recvDrain_trace k pulls,
    recvLoop_stopped sched nums pulls, recvLoop_numCalls sched nums pulls, ?_⟩
  rfl

/-! ### State shape of each operation -/

lemma scan_devices_state (env : ScanEnv) (t : ℚ) (s : Sensor) :
    (Sensor.scan_devices env t s).2.2 = s := by
  unfold Sensor.scan_devices
  split
  · rfl
  · split <;> rfl

lemma connect_state_cases (env : ConnectEnv) (name : String) (t : ℚ) (s : Sensor) :
    (Sensor.connect env name t s).2.2 = s ∨
    (s.handle ≠ none ∧
      ∃ d, (Sensor.connect env name t s).2.2 = { s with connectedDevice := some d }) := by
  unfold Sensor.connect
  split
  · exact Or.inl rfl
  next hh =>
    split
    · exact Or.inl rfl
    · rcases hL : (connectLoop name (env.times.head?.getD 0) t env.times.tail
          env.scannedNums env.scannedDevs).1 with _ | d
      · exact Or.inl (by simp [hL])
      · by_cases hc : env.connectRet ≠ 0
        · exact Or.inl (by simp [hL, hc])
        · exact Or.inr ⟨hh, d, by simp [hL, hc]⟩

lemma start_measurement_state_cases (env : MeasEnv) (s : Sensor) :
    (Sensor.start_measurement env s).2.2 = s ∨
    (s.handle ≠ none ∧ s.connectedDevice ≠ none ∧
      (Sensor.start_measurement env s).2.2 = { s with measuring := true }) := by
  unfold Sensor.start_measurement
  split
  · exact Or.inl rfl
  next hh =>
    split
    · exact Or.inl rfl
    next hc =>
      split
      · exact Or.inl rfl
      · exact Or.inr ⟨hh, hc, rfl⟩

lemma stop_measurement_state_cases (env : StopEnv) (s : Sensor) :
    (Sensor.stop_measurement env s).2.2 = s ∨
    (Sensor.stop_measurement env s).2.2 = { s with measuring := false } := by
  unfold Sensor.stop_measurement
  split
  · exact Or.inr rfl
  · exact Or.inl rfl

lemma nested_disconnect (env : DisconnectEnv) (s : Sensor) (h : Nested s) :
    Nested (Sensor.disconnect env s).2.2 := by
  obtain ⟨oh, oc, m⟩ := s
  rcases oh with _ | hv <;> rcases oc with _ | cv <;> rcases m <;>
    simp_all [Sensor.disconnect, Sensor.stop_measurement, Nested,
      Sensor.is_connected, Sensor.is_measuring]

lemma nested_close (env : CloseEnv) (s : Sensor) (h : Nested s) :
    Nested (Sensor.close env s).2.2 := by
  obtain ⟨oh, oc, m⟩ := s
  rcases oh with _ | hv <;> rcases oc with _ | cv <;> rcases m <;>
    simp_all [Sensor.close, Sensor.disconnect, Sensor.stop_measurement, Nested,
      Sensor.is_connected, Sensor.is_measuring]

lemma nested_stepState (s : Sensor) (op : Op) (h : Nested s) :
    Nested (stepState s op) := by
  cases op with
  | scanOp env t => rw [stepState, scan_devices_state]; exact h
  | connectOp env n t =>
    rcases connect_state_cases env n t s with h' | ⟨hh, d, h'⟩
    · rw [stepState, h']; exact h
    · rw [stepState, h']
      refine ⟨fun _ => by simp [Sensor.is_connected], fun _ => hh⟩
  | startMeasurementOp env =>
    rcases start_measurement_state_cases env s with h' | ⟨hh, hc, h'⟩
    · rw [stepState, h']; exact h
    · rw [stepState, h']
      refine ⟨fun _ => ?_, fun _ => hh⟩
      simpa [Sensor.is_connected, Option.isSome_iff_ne_none] using hc
  | receiveDataOp env => exact h
  | stopMeasurementOp env =>
    rcases stop_measurement_state_cases env s with h' | h'
    · rw [stepState, h']; exact h
    · rw [stepState, h']
      exact ⟨fun hm => by simp [Sensor.is_measuring] at hm, fun hc => h.2 hc⟩
  | disconnectOp env => exact nested_disconnect env s h
  | closeOp env => exact nested_close env s h

lemma nested_foldl (ops : List Op) : ∀ s : Sensor, Nested s →
    Nested (ops.foldl stepState s) := by
  induction ops with
  | nil => intro s h; exact h
  | cons op rest ih =>
    intro s h
    rw [List.foldl_cons]
    exact ih _ (nested_stepState s op h)

/-- C6.  In every session state reachable from a freshly opened session by
any sequence of operations, Measuring implies Connected implies Initialized:
whenever `is_measuring` is true a connected device is recorded, and whenever
a connected device is recorded the handle is present; every operation
preserves this strict nesting. -/
theorem C6_nesting_invariant (initRet : Int) (s0 : Sensor)
    (h0 : Sensor.open initRet = .ok s0) (ops : List Op) :
    Nested (ops.foldl stepState s0) := by
  apply nested_foldl
  unfold Sensor.open at h0
  split at h0
  · cases h0
  · cases h0
    exact ⟨fun hm => by simp [Sensor.is_measuring] at hm,
           fun hc => by simp [Sensor.is_connected] at hc⟩

/-- C6 witness: the invariant after a concrete operation sequence on a
freshly opened session. -/
theorem C6_nesting_witness :
    Nested ([Op.startMeasurementOp ⟨0, 5⟩, Op.stopMeasurementOp ⟨0⟩].foldl
      stepState ⟨some 1, none, false⟩) :=
  C6_nesting_invariant 1 ⟨some 1, none, false⟩ rfl _

/-! ### Characterization of the discovery passes and loops -/

/-- The test the filtered pass applies to one fetched (status, descriptor)
response: fetched successfully and decoded name equal to the target. -/
def devNameMatches (device_name : String) (r : Int × DeviceInfo) : Bool :=
  decide (r.1 = 0 ∧ decodeDeviceName r.2.devicename = device_name)

lemma connectPass_spec (name : String) : ∀ (k : Nat) (devs : List (Int × DeviceInfo)),
    ∃ c : Nat,
      (connectPass name k devs).2.2 = devs.drop c ∧
      (connectPass name k devs).1 =
        (((devs.take c).filter (devNameMatches name)).head?).map Prod.snd := by
  intro k
  induction k with
  | zero => intro devs; exact ⟨0, rfl, rfl⟩
  | succ n ih =>
    intro devs
    cases devs with
    | nil =>
      obtain ⟨c, h1, h2⟩ := ih []
      exact ⟨c, by simpa [connectPass] using h1, by simpa [connectPass] using h2⟩
    | cons r rest =>
      by_cases hm : r.1 = 0 ∧ decodeDeviceName r.2.devicename = name
      · refine ⟨1, ?_, ?_⟩
        · simp [connectPass, hm]
        · simp [connectPass, hm, devNameMatches, List.filter_cons]
      · obtain ⟨c, h1, h2⟩ := ih rest
        refine ⟨c + 1, ?_, ?_⟩
        · simpa [connectPass, hm] using h1
        · simpa [connectPass, hm, devNameMatches, List.filter_cons] using h2

lemma connectLoop_first_match (name : String) (t0 timeout : ℚ) :
    ∀ (ts : List ℚ) (nums : List Int) (devs : List (Int × DeviceInfo)),
      ∃ c : Nat,
        (connectLoop name t0 timeout ts nums devs).1 =
          (((devs.take c).filter (devNameMatches name)).head?).map Prod.snd := by
  intro ts
  induction ts with
  | nil => intro nums devs; exact ⟨0, rfl⟩
  | cons t ts ih =>
    intro nums devs
    by_cases ht : t - t0 < timeout
    · obtain ⟨c, h1, h2⟩ := connectPass_spec name (nums.headD 0).toNat devs
      rcases hp : (connectPass name (nums.headD 0).toNat devs).1 with _ | d
      · have hfil : (devs.take c).filter (devNameMatches name) = [] := by
          rw [hp] at h2
          cases hfe : (devs.take c).filter (devNameMatches name) with
          | nil => rfl
          | cons x xs => rw [hfe] at h2; simp at h2
        obtain ⟨c', hc'⟩ := ih nums.tail (devs.drop c)
        refine ⟨c + c', ?_⟩
        simp only [connectLoop]
        rw [if_pos ht, hp]
        dsimp only
        rw [h1, hc', List.take_add, List.filter_append, hfil, List.nil_append]
      · refine ⟨c, ?_⟩
        simp only [connectLoop]
        rw [if_pos ht, hp]
        dsimp only
        rw [← h2, hp]
    · refine ⟨0, ?_⟩
      simp only [connectLoop]
      rw [if_neg ht]
      rfl

/-- The events a polling pass or loop can emit. -/
def isScanLoopEvent (x : Event) : Prop :=
  x = Event.call .getScannedNum ∨ x = Event.call .getScannedDevice ∨
  x = Event.sleep (1/10)

lemma connectPass_trace_mem (name : String) : ∀ (k : Nat) (devs : List (Int × DeviceInfo)),
    ∀ x ∈ (connectPass name k devs).2.1, x = Event.call .getScannedDevice := by
  intro k
  induction k with
  | zero => intro devs x hx; simp [connectPass] at hx
  | succ n ih =>
    intro devs x hx
    cases devs with
    | nil =>
      simp only [connectPass, List.mem_cons] at hx
      rcases hx with h | h
      · exact h
      · exact ih [] x h
    | cons r rest =>
      by_cases hm : r.1 = 0 ∧ decodeDeviceName r.2.devicename = name
      · simp only [connectPass, if_pos hm, List.mem_singleton] at hx
        exact hx
      · simp only [connectPass, if_neg hm, List.mem_cons] at hx
        rcases hx with h | h
        · exact h
        · exact ih rest x h

lemma connectLoop_trace_mem (name : String) (t0 timeout : ℚ) :
    ∀ (ts : List ℚ) (nums : List Int) (devs : List (Int × DeviceInfo)),
      ∀ x ∈ (connectLoop name t0 timeout ts nums devs).2, isScanLoopEvent x := by
  intro ts
  induction ts with
  | nil => intro nums devs x hx; simp [connectLoop] at hx
  | cons t ts ih =>
    intro nums devs x hx
    by_cases ht : t - t0 < timeout
    · rcases hp : (connectPass name (nums.headD 0).toNat devs).1 with _ | d
      · simp only [connectLoop] at hx
        rw [if_pos ht, hp] at hx
        dsimp only at hx
        simp only [List.mem_cons, List.mem_append] at hx
        rcases hx with (h | h) | (h | h)
        · exact Or.inl h
        · exact Or.inr (Or.inl (connectPass_trace_mem name _ devs x h))
        · exact Or.inr (Or.inr h)
        · exact ih nums.tail _ x h
      · simp only [connectLoop] at hx
        rw [if_pos ht, hp] at hx
        dsimp only at hx
        rcases List.mem_cons.mp hx with h | h
        · exact Or.inl h
        · exact Or.inr (Or.inl (connectPass_trace_mem name _ devs x h))
    · simp only [connectLoop] at hx
      rw [if_neg ht] at hx
      simp at hx

lemma countEvent_zero_of_scanLoopEvents (e : Event) (he : ¬ isScanLoopEvent e)
    {tr : List Event} (h : ∀ x ∈ tr, isScanLoopEvent x) :
    countEvent e tr = 0 := by
  unfold countEvent
  rw [List.filter_eq_nil_iff.mpr]
  · rfl
  · intro a ha
    simp only [decide_eq_true_eq]
    intro hae
    exact he (hae ▸ h a ha)

lemma filter_connect_nil_of_scanLoopEvents {tr : List Event}
    (h : ∀ x ∈ tr, isScanLoopEvent x) :
    tr.filter Event.isConnectDevice = [] := by
  rw [List.filter_eq_nil_iff.mpr]
  intro a ha
  rcases h a ha with h1 | h1 | h1 <;> simp [h1, Event.isConnectDevice]

lemma scanPass_spec : ∀ (k : Nat) (devs : List (Int × DeviceInfo)),
    (scanPass k devs).2.2 = devs.drop k ∧
    (scanPass k devs).1 =
      ((devs.take k).filter (fun r => decide (r.1 = 0))).map (fun r => mkScanEntry r.2) := by
  intro k
  induction k with
  | zero => intro devs; exact ⟨rfl, rfl⟩
  | succ n ih =>
    intro devs
    cases devs with
    | nil =>
      obtain ⟨h1, h2⟩ := ih []
      exact ⟨by simpa [scanPass] using h1, by simpa [scanPass] using h2⟩
    | cons r rest =>
      obtain ⟨h1, h2⟩ := ih rest
      refine ⟨by simpa [scanPass] using h1, ?_⟩
      by_cases hr : r.1 = 0 <;>
        simpa [scanPass, hr, List.filter_cons] using h2

lemma scanPass_trace_mem : ∀ (k : Nat) (devs : List (Int × DeviceInfo)),
    ∀ x ∈ (scanPass k devs).2.1, x = Event.call .getScannedDevice := by
  intro k
  induction k with
  | zero => intro devs x hx; simp [scanPass] at hx
  | succ n ih =>
    intro devs x hx
    cases devs with
    | nil =>
      simp only [scanPass, List.mem_cons] at hx
      rcases hx with h | h
      · exact h
      · exact ih [] x h
    | cons r rest =>
      simp only [scanPass, List.mem_cons] at hx
      rcases hx with h | h
      · exact h
      · exact ih rest x h

lemma scanLoop_result (t0 timeout : ℚ) : ∀ (ts : List ℚ) (nums : List Int)
    (devs : List (Int × DeviceInfo)),
    ∃ c, (scanLoop t0 timeout [] ts nums devs).1 =
      ((devs.take c).filter (fun r => decide (r.1 = 0))).map (fun r => mkScanEntry r.2) := by
  intro ts
  induction ts with
  | nil => intro nums devs; exact ⟨0, rfl⟩
  | cons t ts ih =>
    intro nums devs
    by_cases ht : t - t0 < timeout
    · obtain ⟨h1, h2⟩ := scanPass_spec (nums.headD 0).toNat devs
      by_cases hf : (scanPass (nums.headD 0).toNat devs).1 = []
      · have hfil : (devs.take (nums.headD 0).toNat).filter (fun r => decide (r.1 = 0)) = [] := by
          rw [hf] at h2
          cases hfe : (devs.take (nums.headD 0).toNat).filter (fun r => decide (r.1 = 0)) with
          | nil => rfl
          | cons x xs => rw [hfe] at h2; simp at h2
        obtain ⟨c', hc'⟩ := ih nums.tail (devs.drop (nums.headD 0).toNat)
        refine ⟨(nums.headD 0).toNat + c', ?_⟩
        simp only [scanLoop, List.nil_append]
        rw [if_pos ht, if_pos hf, hf, h1]
        dsimp only
        rw [hc', List.take_add, List.filter_append, hfil, List.nil_append]
      · refine ⟨(nums.headD 0).toNat, ?_⟩
        simp only [scanLoop, List.nil_append]
        rw [if_pos ht, if_neg hf]
        exact h2
    · refine ⟨0, ?_⟩
      simp only [scanLoop]
      rw [if_neg ht]
      rfl

lemma scanLoop_no_reports (t0 timeout : ℚ) : ∀ (ts : List ℚ) (nums : List Int)
    (devs : List (Int × DeviceInfo)), (∀ n ∈ nums, n ≤ 0) →
    (scanLoop t0 timeout [] ts nums devs).1 = [] := by
  intro ts
  induction ts with
  | nil => intro nums devs _; rfl
  | cons t ts ih =>
    intro nums devs h
    by_cases ht : t - t0 < timeout
    · have hn : (nums.headD 0).toNat = 0 := by
        cases nums with
        | nil => rfl
        | cons n ns => exact Int.toNat_of_nonpos (h n (List.mem_cons_self n ns))
      simp only [scanLoop, hn, List.nil_append]
      rw [if_pos ht]
      dsimp only [scanPass]
      rw [if_pos rfl]
      exact ih nums.tail devs (fun n hn' => h n (List.mem_of_mem_tail hn'))
    · simp only [scanLoop]
      rw [if_neg ht]

lemma scanLoop_trace_mem (t0 timeout : ℚ) : ∀ (ts : List ℚ) (nums : List Int)
    (devs : List (Int × DeviceInfo)),
    ∀ x ∈ (scanLoop t0 timeout [] ts nums devs).2, isScanLoopEvent x := by
  intro ts
  induction ts with
  | nil => intro nums devs x hx; simp [scanLoop] at hx
  | cons t ts ih =>
    intro nums devs x hx
    by_cases ht : t - t0 < timeout
    · by_cases hf : (scanPass (nums.headD 0).toNat devs).1 = []
      · simp only [scanLoop, List.nil_append] at hx
        rw [if_pos ht, if_pos hf, hf] at hx
        dsimp only at hx
        simp only [List.mem_cons, List.mem_append] at hx
        rcases hx with (h | h) | (h | h)
        · exact Or.inl h
        · exact Or.inr (Or.inl (scanPass_trace_mem _ devs x h))
        · exact Or.inr (Or.inr h)
        · exact ih nums.tail _ x h
      · simp only [scanLoop, List.nil_append] at hx
        rw [if_pos ht, if_neg hf] at hx
        dsimp only at hx
        rcases List.mem_cons.mp hx with h | h
        · exact Or.inl h
        · exact Or.inr (Or.inl (scanPass_trace_mem _ devs x h))
    · simp only [scanLoop] at hx
      rw [if_neg ht] at hx
      simp at hx

lemma scanLoop_sleeps (t0 timeout : ℚ) : ∀ (ts : List ℚ) (nums : List Int)
    (devs : List (Int × DeviceInfo)),
    countEvent (Event.sleep (1/10)) (scanLoop t0 timeout [] ts nums devs).2 +
      (if (scanLoop t0 timeout [] ts nums devs).1 = [] then 0 else 1) =
    countEvent (Event.call .getScannedNum) (scanLoop t0 timeout [] ts nums devs).2 := by
  intro ts
  induction ts with
  | nil => intro nums devs; rfl
  | cons t ts ih =>
    intro nums devs
    by_cases ht : t - t0 < timeout
    · have hpass0 : ∀ e : Event, e ≠ Event.call .getScannedDevice →
          countEvent e (scanPass (nums.headD 0).toNat devs).2.1 = 0 := by
        intro e he
        unfold countEvent
        rw [List.filter_eq_nil_iff.mpr]
        · rfl
        · intro a ha
          simp only [decide_eq_true_eq]
          intro hae
          exact he (hae ▸ scanPass_trace_mem _ devs a ha)
      by_cases hf : (scanPass (nums.headD 0).toNat devs).1 = []
      · simp only [scanLoop, List.nil_append]
        rw [if_pos ht, if_pos hf, hf]
        dsimp only
        have hih := ih nums.tail ((scanPass (nums.headD 0).toNat devs).2.2)
        simp only [countEvent_cons, countEvent_append,
          hpass0 (Event.sleep (1/10)) (by simp),
          hpass0 (Event.call .getScannedNum) (by simp)]
        by_cases hrest :
            (scanLoop t0 timeout [] ts nums.tail (scanPass (nums.headD 0).toNat devs).2.2).1 = [] <;>
          simp only [hrest, if_pos, if_neg] at hih ⊢ <;> simp at hih ⊢ <;> omega
      · simp only [scanLoop, List.nil_append]
        rw [if_pos ht, if_neg hf]
        dsimp only
        simp only [countEvent_cons, countEvent_append,
          hpass0 (Event.sleep (1/10)) (by simp),
          hpass0 (Event.call .getScannedNum) (by simp)]
        rw [if_neg hf]
        simp
    · simp only [scanLoop]
      rw [if_neg ht]
      rfl

/-! ### Traces of the exception-injected loops -/

lemma scanPassExc_trace_mem : ∀ (k : Nat) (devs : List (Option (Int × DeviceInfo))),
    ∀ x ∈ (scanPassExc k devs).2, x = Event.call .getScannedDevice := by
  intro k
  induction k with
  | zero => intro devs x hx; simp [scanPassExc] at hx
  | succ n ih =>
    intro devs x hx
    cases devs with
    | nil =>
      simp only [scanPassExc, List.mem_cons] at hx
      rcases hx with h | h
      · exact h
      · exact ih [] x h
    | cons r rest =>
      cases r with
      | none =>
        simp only [scanPassExc, List.mem_singleton] at hx
        exact hx
      | some r =>
        simp only [scanPassExc, List.mem_cons] at hx
        rcases hx with h | h
        · exact h
        · exact ih rest x h

lemma connectPassExc_trace_mem (name : String) :
    ∀ (k : Nat) (devs : List (Option (Int × DeviceInfo))),
    ∀ x ∈ (connectPassExc name k devs).2, x = Event.call .getScannedDevice := by
  intro k
  induction k with
  | zero => intro devs x hx; simp [connectPassExc] at hx
  | succ n ih =>
    intro devs x hx
    cases devs with
    | nil =>
      simp only [connectPassExc, List.mem_cons] at hx
      rcases hx with h | h
      · exact h
      · exact ih [] x h
    | cons r rest =>
      cases r with
      | none =>
        simp only [connectPassExc, List.mem_singleton] at hx
        exact hx
      | some r =>
        by_cases hm : r.1 = 0 ∧ decodeDeviceName r.2.devicename = name
        · simp only [connectPassExc, if_pos hm, List.mem_singleton] at hx
          exact hx
        · simp only [connectPassExc, if_neg hm, List.mem_cons] at hx
          rcases hx with h | h
          · exact h
          · exact ih rest x h

lemma scanLoopExc_trace_mem (t0 timeout : ℚ) : ∀ (ts : List ℚ)
    (devices : List ScanEntry) (nums : List (Option Int))
    (devs : List (Option (Int × DeviceInfo))),
    ∀ x ∈ (scanLoopExc t0 timeout devices ts nums devs).2, isScanLoopEvent x := by
  intro ts
  induction ts with
  | nil => intro devices nums devs x hx; simp [scanLoopExc] at hx
  | cons t ts ih =>
    intro devices nums devs x hx
    by_cases ht : t - t0 < timeout
    · simp only [scanLoopExc] at hx
      rw [if_pos ht] at hx
      rcases hn : nums.headD (some 0) with _ | n
      · rw [hn] at hx
        simp only [List.mem_singleton] at hx
        exact Or.inl hx
      · rw [hn] at hx
        dsimp only at hx
        rcases hp : scanPassExc n.toNat devs with ⟨res, passTr⟩
        have htr : (scanPassExc n.toNat devs).2 = passTr := by rw [hp]
        rw [hp] at hx
        rcases res with e | q
        · dsimp only at hx
          rcases List.mem_cons.mp hx with h | h
          · exact Or.inl h
          · exact Or.inr (Or.inl (scanPassExc_trace_mem n.toNat devs x (htr ▸ h)))
        · obtain ⟨found, devs'⟩ := q
          dsimp only at hx
          by_cases hd : devices ++ found = []
          · rw [if_pos hd] at hx
            rcases List.mem_cons.mp hx with h | h
            · exact Or.inl h
            · rcases List.mem_append.mp h with h' | h'
              · exact Or.inr (Or.inl (scanPassExc_trace_mem n.toNat devs x (htr ▸ h')))
              · rcases List.mem_cons.mp h' with h'' | h''
                · exact Or.inr (Or.inr h'')
                · exact ih _ nums.tail devs' x h''
          · rw [if_neg hd] at hx
            rcases List.mem_cons.mp hx with h | h
            · exact Or.inl h
            · exact Or.inr (Or.inl (scanPassExc_trace_mem n.toNat devs x (htr ▸ h)))
    · simp only [scanLoopExc] at hx
      rw [if_neg ht] at hx
      simp at hx

lemma connectLoopExc_trace_mem (name : String) (t0 timeout : ℚ) : ∀ (ts : List ℚ)
    (nums : List (Option Int)) (devs : List (Option (Int × DeviceInfo))),
    ∀ x ∈ (connectLoopExc name t0 timeout ts nums devs).2, isScanLoopEvent x := by
  intro ts
  induction ts with
  | nil => intro nums devs x hx; simp [connectLoopExc] at hx
  | cons t ts ih =>
    intro nums devs x hx
    by_cases ht : t - t0 < timeout
    · simp only [connectLoopExc] at hx
      rw [if_pos ht] at hx
      rcases hn : nums.headD (some 0) with _ | n
      · rw [hn] at hx
        simp only [List.mem_singleton] at hx
        exact Or.inl hx
      · rw [hn] at hx
        dsimp only at hx
        rcases hp : connectPassExc name n.toNat devs with ⟨res, passTr⟩
        have htr : (connectPassExc name n.toNat devs).2 = passTr := by rw [hp]
        rw [hp] at hx
        rcases res with e | q
        · dsimp only at hx
          rcases List.mem_cons.mp hx with h | h
          · exact Or.inl h
          · exact Or.inr (Or.inl (connectPassExc_trace_mem name n.toNat devs x (htr ▸ h)))
        · obtain ⟨tgt, devs'⟩ := q
          rcases tgt with _ | d
          · dsimp only at hx
            rcases List.mem_cons.mp hx with h | h
            · exact Or.inl h
            · rcases List.mem_append.mp h with h' | h'
              · exact Or.inr (Or.inl (connectPassExc_trace_mem name n.toNat devs x (htr ▸ h')))
              · rcases List.mem_cons.mp h' with h'' | h''
                · exact Or.inr (Or.inr h'')
                · exact ih nums.tail devs' x h''
          · dsimp only at hx
            rcases List.mem_cons.mp hx with h | h
            · exact Or.inl h
            · exact Or.inr (Or.inl (connectPassExc_trace_mem name n.toNat devs x (htr ▸ h)))
    · simp only [connectLoopExc] at hx
      rw [if_neg ht] at hx
      simp at hx

/-! ### Unfolding the discovery entry points past their precondition checks -/

/-- The devices and trace the `scan_devices` polling loop observes for a
given environment. -/
def scanObserved (env : ScanEnv) (timeout : ℚ) : List ScanEntry × List Event :=
  scanLoop (env.times.headD 0) timeout [] env.times.tail env.scannedNums env.scannedDevs

lemma scan_devices_unfold (env : ScanEnv) (timeout : ℚ) (s : Sensor)
    (hh : s.handle ≠ none) (hs : env.startScanRet = 0) :
    Sensor.scan_devices env timeout s =
      (.ok (scanObserved env timeout).1,
       Event.call .startScan :: (scanObserved env timeout).2 ++ [Event.call .stopScan],
       s) := by
  simp only [Sensor.scan_devices, scanObserved]
  rw [if_neg hh, if_neg (by simp [hs])]

lemma connect_unfold_found (env : ConnectEnv) (name : String) (timeout : ℚ)
    (s : Sensor) (hh : s.handle ≠ none) (hs : env.startScanRet = 0) (d : DeviceInfo)
    (hd : (connectLoop name (env.times.headD 0) timeout env.times.tail
        env.scannedNums env.scannedDevs).1 = some d) :
    Sensor.connect env name timeout s =
      ((if env.connectRet ≠ 0 then
          .error (.sensorConnectionError ("Failed to connect to device '" ++ name ++ "'"))
        else .ok ()),
       (Event.call .startScan :: (connectLoop name (env.times.headD 0) timeout
          env.times.tail env.scannedNums env.scannedDevs).2 ++ [Event.call .stopScan])
         ++ [Event.call (.connect_device d)],
       if env.connectRet ≠ 0 then s else { s with connectedDevice := some d }) := by
  simp only [Sensor.connect]
  rw [if_neg hh, if_neg (by simp [hs]), hd]
  by_cases hc : env.connectRet ≠ 0
  · simp only [if_pos hc]
  · simp only [if_neg hc]

lemma connect_unfold_notfound (env : ConnectEnv) (name : String) (timeout : ℚ)
    (s : Sensor) (hh : s.handle ≠ none) (hs : env.startScanRet = 0)
    (hd : (connectLoop name (env.times.headD 0) timeout env.times.tail
        env.scannedNums env.scannedDevs).1 = none) :
    Sensor.connect env name timeout s =
      (.error (.sensorConnectionError ("Device '" ++ name ++ "' not found")),
       Event.call .startScan :: (connectLoop name (env.times.headD 0) timeout
          env.times.tail env.scannedNums env.scannedDevs).2 ++ [Event.call .stopScan],
       s) := by
  simp only [Sensor.connect]
  rw [if_neg hh, if_neg (by simp [hs]), hd]

lemma filter_connect_scan_trace (L : List Event) (hL : ∀ x ∈ L, isScanLoopEvent x) :
    (Event.call .startScan :: L ++ [Event.call .stopScan]).filter Event.isConnectDevice
      = [] := by
  simp only [List.filter_cons, List.filter_append]
  rw [filter_connect_nil_of_scanLoopEvents hL]
  simp [Event.isConnectDevice]

/-- C3.  Filtered discovery: the captured target (when there is one) is the
first descriptor among the consumed prefix of the transport's reports that
was fetched with status 0 and whose decoded name equals the requested name;
on capture, `connect` issues exactly one `connect_device` call, with exactly
that descriptor, and on zero return records it as the session's connected
device; when no matching device is reported before the timeout, `connect`
fails with `SensorConnectionError` "Device '<name>' not found" and issues no
`connect_device` call. -/
theorem C3_connect_filtered (env : ConnectEnv) (name : String) (timeout : ℚ)
    (s : Sensor) (hh : s.handle ≠ none) (hs : env.startScanRet = 0) :
    (∃ c, connectTarget env name timeout =
        (((env.scannedDevs.take c).filter (devNameMatches name)).head?).map Prod.snd)
  ∧ (∀ d, connectTarget env name timeout = some d →
        ((Sensor.connect env name timeout s).2.1.filter Event.isConnectDevice)
            = [Event.call (.connect_device d)]
      ∧ (env.connectRet = 0 →
          (Sensor.connect env name timeout s).1 = .ok ()
        ∧ (Sensor.connect env name timeout s).2.2 = { s with connectedDevice := some d }))
  ∧ (connectTarget env name timeout = none →
        (Sensor.connect env name timeout s).1 =
          .error (.sensorConnectionError ("Device '" ++ name ++ "' not found"))
      ∧ ((Sensor.connect env name timeout s).2.1.filter Event.isConnectDevice) = []) := by
  refine ⟨connectLoop_first_match name (env.times.headD 0) timeout _ _ _, ?_, ?_⟩
  · intro d hd
    rw [connect_unfold_found env name timeout s hh hs d hd]
    refine ⟨?_, ?_⟩
    · dsimp only
      rw [List.filter_append,
        filter_connect_scan_trace _ (connectLoop_trace_mem name (env.times.headD 0)
          timeout env.times.tail env.scannedNums env.scannedDevs)]
      simp [Event.isConnectDevice]
    · intro h0
      have hc : ¬ env.connectRet ≠ 0 := by simp [h0]
      rw [if_neg hc, if_neg hc]
      exact ⟨rfl, rfl⟩
  · intro hd
    rw [connect_unfold_notfound env name timeout s hh hs hd]
    exact ⟨rfl,
      filter_connect_scan_trace _ (connectLoop_trace_mem name (env.times.headD 0)
        timeout env.times.tail env.scannedNums env.scannedDevs)⟩

/-- C3 witness: the spec's P3 scenario — two reported devices, filtered
discovery for the second one. -/
theorem C3_connect_witness :
    ∃ c, connectTarget ⟨0, 0, [0, 1], [2],
        [(0, ⟨[1], "HARU2-001"⟩), (0, ⟨[2], "HARU2-002"⟩)], 0⟩ "HARU2-002" 10 =
      ((((⟨0, 0, [0, 1], [2], [(0, ⟨[1], "HARU2-001"⟩), (0, ⟨[2], "HARU2-002"⟩)], 0⟩ :
          ConnectEnv)).scannedDevs.take c).filter
            (devNameMatches "HARU2-002")).head?.map Prod.snd :=
  (C3_connect_filtered ⟨0, 0, [0, 1], [2],
      [(0, ⟨[1], "HARU2-001"⟩), (0, ⟨[2], "HARU2-002"⟩)], 0⟩ "HARU2-002" 10
      ⟨some 1, none, false⟩ (by simp) rfl).1

/-- C5.  Once a scan has been started, both discovery loops issue `stopScan`
exactly once on every exit path: the unfiltered and filtered wrappers on
their normal and timeout exits, and — through the `try/finally` re-embedding
with an injected transport exception — also when the polling loop raises. -/
theorem C5_stop_scan_exactly_once (senv : ScanEnv) (cenv : ConnectEnv) (name : String)
    (tA tB tC tD t0C t0D : ℚ) (s s2 : Sensor)
    (timesC timesD : List ℚ) (numsC numsD : List (Option Int))
    (devsC devsD : List (Option (Int × DeviceInfo)))
    (h1 : s.handle ≠ none) (h2 : senv.startScanRet = 0)
    (h3 : s2.handle ≠ none) (h4 : cenv.startScanRet = 0) :
    countEvent (Event.call .stopScan) (Sensor.scan_devices senv tA s).2.1 = 1
  ∧ countEvent (Event.call .stopScan) (Sensor.connect cenv name tB s2).2.1 = 1
  ∧ countEvent (Event.call .stopScan) (scanDevicesFinally t0C tC timesC numsC devsC).2 = 1
  ∧ countEvent (Event.call .stopScan) (connectFinally name t0D tD timesD numsD devsD).2 = 1 := by
  refine ⟨?_, ?_, ?_, ?_⟩
  · rw [scan_devices_unfold senv tA s h1 h2]
    dsimp only
    simp only [scanObserved]
    rw [countEvent_append, countEvent_cons,
      countEvent_zero_of_scanLoopEvents (Event.call .stopScan) (by simp [isScanLoopEvent])
        (scanLoop_trace_mem _ _ _ _ _)]
    simp [countEvent]
  · rcases hL : (connectLoop name (cenv.times.headD 0) tB cenv.times.tail
        cenv.scannedNums cenv.scannedDevs).1 with _ | d
    · rw [connect_unfold_notfound cenv name tB s2 h3 h4 hL]
      dsimp only
      rw [countEvent_append, countEvent_cons,
        countEvent_zero_of_scanLoopEvents (Event.call .stopScan) (by simp [isScanLoopEvent])
          (connectLoop_trace_mem _ _ _ _ _ _)]
      simp [countEvent]
    · rw [connect_unfold_found cenv name tB s2 h3 h4 d hL]
      dsimp only
      rw [countEvent_append, countEvent_append, countEvent_cons,
        countEvent_zero_of_scanLoopEvents (Event.call .stopScan) (by simp [isScanLoopEvent])
          (connectLoop_trace_mem _ _ _ _ _ _)]
      simp [countEvent]
  · simp only [scanDevicesFinally]
    rw [countEvent_append, countEvent_cons,
      countEvent_zero_of_scanLoopEvents (Event.call .stopScan) (by simp [isScanLoopEvent])
        (scanLoopExc_trace_mem _ _ _ _ _ _)]
    simp [countEvent]
  · simp only [connectFinally]
    rw [countEvent_append, countEvent_cons,
      countEvent_zero_of_scanLoopEvents (Event.call .stopScan) (by simp [isScanLoopEvent])
        (connectLoopExc_trace_mem _ _ _ _ _ _)]
    simp [countEvent]

/-- C5 witness: the scan-release count on a concrete initialized session. -/
theorem C5_stop_scan_witness :
    countEvent (Event.call .stopScan)
      (Sensor.scan_devices ⟨0, 0, [0, 11], [], []⟩ 10 ⟨some 1, none, false⟩).2.1 = 1 :=
  (C5_stop_scan_exactly_once ⟨0, 0, [0, 11], [], []⟩ ⟨0, 0, [], [], [], 0⟩ "HARU2-001"
    10 10 10 10 0 0 ⟨some 1, none, false⟩ ⟨some 1, none, false⟩
    [] [] [] [] [] [] (by simp) rfl (by simp) rfl).1

/-- C9.  Unfiltered discovery: the loop's result is exactly the
successfully fetched descriptors of a consumed prefix of the transport's
reports — a partial set when the transport reports devices in later waves,
as the loop stops polling as soon as a pass has appended at least one
device; a pass that appends none is followed by exactly one `time.sleep` of
the fixed 0.1-second interval before re-polling, until the timeout elapses
(sleep events and polling passes balance, and every sleep is 0.1 s); on a
concrete two-wave transport the scan returns only the first wave. -/
theorem C9_scan_early_exit (env : ScanEnv) (timeout : ℚ) (s : Sensor)
    (h1 : s.handle ≠ none) (h2 : env.startScanRet = 0) :
    Sensor.scan_devices env timeout s =
      (.ok (scanObserved env timeout).1,
       Event.call .startScan :: (scanObserved env timeout).2 ++ [Event.call .stopScan], s)
  ∧ (∃ c, (scanObserved env timeout).1 =
        ((env.scannedDevs.take c).filter (fun r => decide (r.1 = 0))).map
          (fun r => mkScanEntry r.2))
  ∧ countEvent (Event.sleep (1/10)) (scanObserved env timeout).2 +
      (if (scanObserved env timeout).1 = [] then 0 else 1) =
      countEvent (Event.call .getScannedNum) (scanObserved env timeout).2
  ∧ (scanObserved env timeout).2.filter Event.isSleep =
      (scanObserved env timeout).2.filter (fun x => decide (x = Event.sleep (1/10)))
  ∧ (Sensor.scan_devices
        ⟨0, 0, [0, 1, 2], [1, 1], [(0, ⟨[1], "HARU2-001"⟩), (0, ⟨[2], "HARU2-002"⟩)]⟩
        10 ⟨some 1, none, false⟩).1 = .ok [mkScanEntry ⟨[1], "HARU2-001"⟩] := by
  refine ⟨scan_devices_unfold env timeout s h1 h2,
    scanLoop_result (env.times.headD 0) timeout env.times.tail env.scannedNums
      env.scannedDevs,
    scanLoop_sleeps (env.times.headD 0) timeout env.times.tail env.scannedNums
      env.scannedDevs, ?_, ?_⟩
  · apply List.filter_congr
    intro a ha
    rcases scanLoop_trace_mem (env.times.headD 0) timeout env.times.tail
        env.scannedNums env.scannedDevs a ha with h | h | h <;>
      simp [h, Event.isSleep]
  · norm_num [Sensor.scan_devices, scanLoop, scanPass]
    simp

/-- C10.  When the transport reports no devices (or every descriptor fetch
returns a nonzero status) on every pass until the timeout elapses,
`scan_devices` returns an empty list, raises no error, and leaves the
session state unchanged — an unfiltered-discovery timeout is not an error. -/
theorem C10_scan_all_misses_ok_empty (env : ScanEnv) (timeout : ℚ) (s : Sensor)
    (h1 : s.handle ≠ none) (h2 : env.startScanRet = 0)
    (h3 : (∀ r ∈ env.scannedDevs, r.1 ≠ 0) ∨ (∀ n ∈ env.scannedNums, n ≤ 0)) :
    (Sensor.scan_devices env timeout s).1 = .ok []
  ∧ (Sensor.scan_devices env timeout s).2.2 = s := by
  refine ⟨?_, scan_devices_state env timeout s⟩
  rw [scan_devices_unfold env timeout s h1 h2]
  dsimp only
  rcases h3 with h3 | h3
  · obtain ⟨c, hc⟩ := scanLoop_result (env.times.headD 0) timeout env.times.tail
      env.scannedNums env.scannedDevs
    simp only [scanObserved]
    rw [hc]
    rw [List.filter_eq_nil_iff.mpr]
    · rfl
    · intro a ha
      have := h3 a (List.take_subset _ _ ha)
      simp [this]
  · simp only [scanObserved]
    rw [scanLoop_no_reports (env.times.headD 0) timeout env.times.tail
      env.scannedNums env.scannedDevs h3]

/-- C10 witness: a transport whose two fetches both fail, observed past the
timeout. -/
theorem C10_scan_witness :
    (Sensor.scan_devices
      ⟨0, 0, [0, 1, 11], [1, 1], [(-1, ⟨[1], "HARU2-001"⟩), (-1, ⟨[2], "HARU2-002"⟩)]⟩
      10 ⟨some 1, none, false⟩).1 = .ok [] :=
  (C10_scan_all_misses_ok_empty
    ⟨0, 0, [0, 1, 11], [1, 1], [(-1, ⟨[1], "HARU2-001"⟩), (-1, ⟨[2], "HARU2-002"⟩)]⟩
    10 ⟨some 1, none, false⟩ (by simp) rfl
    (Or.inl (by decide))).1

/-- C9 witness: the sleep/poll balance on a concrete environment. -/
theorem C9_scan_witness :
    (Sensor.scan_devices ⟨0, 0, [0, 11], [], []⟩ 10 ⟨some 1, none, false⟩) =
      (.ok (scanObserved ⟨0, 0, [0, 11], [], []⟩ 10).1,
       Event.call .startScan :: (scanObserved ⟨0, 0, [0, 11], [], []⟩ 10).2 ++
         [Event.call .stopScan], ⟨some 1, none, false⟩) :=
  (C9_scan_early_exit ⟨0, 0, [0, 11], [], []⟩ 10 ⟨some 1, none, false⟩
    (by simp) rfl).1
